import Mathlib

/-!
Shallow embedding of the oronfman/fortnite repository (geoblock.py and
sniffer.py): an outbound-packet geo-filter.  Python values that may be None
are modelled as Option; Python exceptions raised by library calls are
modelled with Except PyErr; the module-global mutable state (RUNNING,
CURRENT_DIVERT, _IP_COUNTRY_CACHE) is threaded explicitly.  Asynchronous
mutation of RUNNING by the signal handler is modelled by recording, in each
loop event, the value of the flag at each point where the loop reads it.
-/

/-- Kinds of Python exceptions we need to distinguish: the standard library
ip address parser raises ValueError on unparseable input; other exception
classes are collapsed into otherError. -/
inductive PyErr where
  | valueError
  | otherError
deriving DecidableEq, Repr

/-- Result of a successful ipaddress.ip_address call: the three boolean
properties the repository reads from the returned address object. -/
structure IPInfo where
  is_private : Bool
  is_loopback : Bool
  is_link_local : Bool
deriving DecidableEq, Repr

namespace Geoblock

/-- Embeds geoblock.py line 17-22. The argument is Option String because the
loop passes getattr(pkt, 'dst_addr', None), which may be None. The parse
function models ipaddress.ip_address; the bare except clause catches every
exception and returns False. -/
def is_local_ip (parse : Option String → Except PyErr IPInfo)
    (ip : Option String) : Bool :=
  match parse ip with
  | .ok o => o.is_private || o.is_loopback || o.is_link_local
  | .error _ => false

/-- Embeds the module constant _BLOCK_COUNTRIES (geoblock.py line 10). -/
def _BLOCK_COUNTRIES : List String := ["GB", "DE"]

/-- Embeds MIN_DST_PORT (geoblock.py line 13). -/
def MIN_DST_PORT : Nat := 15000

/-- Embeds MAX_DST_PORT (geoblock.py line 14). -/
def MAX_DST_PORT : Nat := 15999

/-- The _IP_COUNTRY_CACHE dict (geoblock.py line 11): keys are the dst
values (possibly None), values are the stored country codes (possibly
None). Newest binding first; lookup takes the first match, so consing
models dict assignment. -/
abbrev Cache := List (Option String × Option String)

/-- Python cache.get(ip) before the conflation with None: some v when the
key is present with stored value v, none when absent. -/
def cacheGet (c : Cache) (k : Option String) : Option (Option String) :=
  (List.find? (fun kv => kv.1 == k) c).map (·.2)

/-- Python cache[ip] = v. -/
def cacheInsert (k : Option String) (v : Option String) (c : Cache) : Cache :=
  (k, v) :: c

/-- Embeds get_ip_country (geoblock.py line 77-90). The reader argument
models the module global _GEOIP_READER: none when the database failed to
load, otherwise a lookup function returning none when the query raises or
the iso_code is absent. Returns the country, the updated cache, and the
number of database queries performed by this call. Note the Python line
`v = _IP_COUNTRY_CACHE.get(ip)` followed by `if v is not None` treats a
stored None the same as a missing key, which is `(cacheGet c ip).join`. -/
def get_ip_country (reader : Option (Option String → Option String))
    (cache : Cache) (ip : Option String) : Option String × Cache × Nat :=
  match (cacheGet cache ip).join with
  | some c => (some c, cache, 0)
  | none =>
    match reader with
    | some db => (db ip, cacheInsert ip (db ip) cache, 1)
    | none => (none, cacheInsert ip none cache, 0)

/-- Embeds the allow-unfiltered condition of geoblock.py line 134:
dst_port is None or dst_port <= MIN_DST_PORT or dst_port > MAX_DST_PORT. -/
def port_out_of_range (p : Option Nat) : Bool :=
  match p with
  | none => true
  | some v => v ≤ MIN_DST_PORT || v > MAX_DST_PORT

/-- The monitored-window predicate of the spec (PortWindow.in_window): the
negation of the allow-unfiltered condition. -/
def in_window (p : Option Nat) : Bool :=
  !port_out_of_range p

/-- The per-packet allow/drop outcome: allow means the packet is re-injected
with w.send, drop means it is discarded by not re-injecting. -/
inductive Decision where
  | allow
  | drop
deriving DecidableEq, Repr

/-- The two fields the loop reads from an intercepted packet, each through
getattr with default None. -/
structure Packet where
  dst_addr : Option String
  dst_port : Option Nat
deriving DecidableEq, Repr

/-- The external collaborators of the loop: the ip address parser used by
is_local_ip and the geolocation reader used by get_ip_country. -/
structure GeoEnv where
  parse : Option String → Except PyErr IPInfo
  reader : Option (Option String → Option String)

/-- Embeds the Python str.upper() call of geoblock.py line 139, applied
character by character (the country codes involved are ASCII). -/
def pyUpper (s : String) : String :=
  String.mk (s.data.map Char.toUpper)

/-- Embeds geoblock.py line 138, `get_ip_country(dst) or 'Unknown'`: the
Python or returns the right operand when the left is falsy, and both None
and the empty string are falsy. -/
def country_label (c? : Option String) : String :=
  match c? with
  | some s => if s = "" then "Unknown" else s
  | none => "Unknown"

/-- Embeds the per-packet body, geoblock.py lines 125-145: local bypass,
port-window bypass, country lookup with `or 'Unknown'`, then the
blocked-country test `country and country.upper() in _BLOCK_COUNTRIES`.
Returns the decision and the updated cache. -/
def handle_packet (env : GeoEnv) (cache : Cache) (pkt : Packet) :
    Decision × Cache :=
  let dst := pkt.dst_addr
  if is_local_ip env.parse dst then
    (Decision.allow, cache)
  else if port_out_of_range pkt.dst_port then
    (Decision.allow, cache)
  else
    let r := get_ip_country env.reader cache dst
    let country := country_label r.1
    if (country != "") && _BLOCK_COUNTRIES.contains (Geoblock.pyUpper country) then
      (Decision.drop, r.2.1)
    else
      (Decision.allow, r.2.1)

/-- One observable iteration of the for-loop over the divert handle
(geoblock.py lines 118-154), with the values of the asynchronously mutated
RUNNING flag recorded at each read point.
* recv: the iterator yields pkt (possibly None) and the loop observes
  runningTop at line 119.
* handleErr: the iterator yields pkt, runningTop is observed at line 119,
  and the handler body raises; runningCatch is the flag observed at line
  148 and resendOk tells whether the recovery w.send at line 152 succeeds.
  The raise comes from a failed w.send, so no packet was re-injected and
  the cache is unchanged for that iteration.
* recvFail: the iterator itself raises (geoblock.py line 155), with
  runningErr the flag observed at line 157. -/
inductive LoopEvent where
  | recv (runningTop : Bool) (pkt : Option Packet)
  | handleErr (runningTop : Bool) (pkt : Packet) (runningCatch : Bool)
      (resendOk : Bool)
  | recvFail (runningErr : Bool)

/-- Runs the for-loop of geoblock.py lines 118-158 over a finite list of
events, threading the country cache and accumulating the re-injected
packets in order. Returns the final cache and the list of re-injected
packets. An exhausted event list models the iterator ending. -/
def runLoop (env : GeoEnv) : List LoopEvent → Cache → List Packet →
    Cache × List Packet
  | [], cache, sent => (cache, sent)
  | LoopEvent.recv running pkt? :: rest, cache, sent =>
    if running then
      match pkt? with
      | none => runLoop env rest cache sent
      | some pkt =>
        let r := handle_packet env cache pkt
        runLoop env rest r.2
          (if r.1 = Decision.allow then sent ++ [pkt] else sent)
    else
      (cache, sent)
  | LoopEvent.handleErr running pkt runningCatch resendOk :: rest,
      cache, sent =>
    if running then
      if runningCatch then
        runLoop env rest cache (if resendOk then sent ++ [pkt] else sent)
      else
        (cache, sent)
    else
      (cache, sent)
  | LoopEvent.recvFail _ :: _, cache, sent => (cache, sent)

/-- Outcome of entering the WinDivert context (geoblock.py line 115):
either opening raises (setupFail, with the flag value observed at line
160), or the handle opens and the loop consumes the given events. -/
inductive SetupOutcome where
  | setupFail (runningErr : Bool)
  | opened (events : List LoopEvent)

/-- Observable result of one call to block_countries_for_process: the value
of CURRENT_DIVERT when the function returns, the final cache, and the
re-injected packets. -/
structure RunResult where
  currentDivert : Option Unit
  cache : Cache
  sent : List Packet

/-- Embeds block_countries_for_process (geoblock.py lines 107-163). On
setup failure no packet is processed; otherwise CURRENT_DIVERT is published
(line 116), the loop runs, and the finally clause (line 163) clears
CURRENT_DIVERT to None on every exit path. cache0 is the value of the
module-global _IP_COUNTRY_CACHE when the call starts. -/
def block_countries_for_process (env : GeoEnv) (cache0 : Cache)
    (outcome : SetupOutcome) : RunResult :=
  match outcome with
  | SetupOutcome.setupFail _ =>
    { currentDivert := none, cache := cache0, sent := [] }
  | SetupOutcome.opened events =>
    let r := runLoop env events cache0 []
    { currentDivert := none, cache := r.1, sent := r.2 }

/-- A divert handle, observable only through whether it has been closed. -/
structure DivertHandle where
  closed : Bool
deriving DecidableEq, Repr

/-- The two module globals read and written by the signal handler. -/
structure SignalState where
  running : Bool
  currentDivert : Option DivertHandle
deriving DecidableEq, Repr

/-- The close call on a handle, which may itself raise. -/
def closeHandle (raises : Bool) (h : DivertHandle) :
    Except PyErr DivertHandle :=
  if raises then Except.error PyErr.otherError
  else Except.ok { h with closed := true }

/-- Embeds _signal_stop (geoblock.py lines 93-101): set RUNNING to False
first, then if CURRENT_DIVERT is truthy (non-None) call close, swallowing
any exception it raises. Returns the new global state and whether close was
invoked. The function is total: it models that the handler never lets an
exception escape. -/
def _signal_stop (closeRaises : Bool) (st : SignalState) :
    SignalState × Bool :=
  let st1 : SignalState := { st with running := false }
  match st1.currentDivert with
  | none => (st1, false)
  | some h =>
    match closeHandle closeRaises h with
    | Except.ok h2 => ({ st1 with currentDivert := some h2 }, true)
    | Except.error _ => (st1, true)

end Geoblock

namespace Sniffer

/-- Embeds is_local_ip from sniffer.py lines 11-31: the same three checks
written as successive ifs, but the except clause catches only ValueError;
any other exception propagates, so the result type is Except. -/
def is_local_ip (parse : Option String → Except PyErr IPInfo)
    (ip : Option String) : Except PyErr Bool :=
  match parse ip with
  | .ok o =>
    if o.is_private then Except.ok true
    else if o.is_loopback then Except.ok true
    else if o.is_link_local then Except.ok true
    else Except.ok false
  | .error PyErr.valueError => Except.ok false
  | .error e => Except.error e

end Sniffer

open Geoblock

/-- A cache all of whose stored values are the unresolved sentinel None;
this is the invariant of _IP_COUNTRY_CACHE when the reader never resolves
(in particular when the database failed to load, since the cache starts
empty). -/
def AllNoneCache (c : Cache) : Prop := ∀ kv ∈ c, kv.2 = none

/-- A reader whose database lookup fails for every address (for example an
address absent from the database, geoblock.py line 87). -/
def failingReader : Option (Option String → Option String) :=
  some (fun _ => none)

/-- The environment of a run in which the geolocation database failed to
load: the reader is None and the parser rejects every input. -/
def noDbEnv : GeoEnv :=
  { parse := fun _ => Except.error PyErr.valueError, reader := none }

/-- In an all-None cache the Python membership test sees every key as a
miss, because cache.get conflates a stored None with an absent key. -/
theorem cacheGet_join_of_allNone {c : Cache} (hc : AllNoneCache c)
    (ip : Option String) : (cacheGet c ip).join = none := by
  unfold cacheGet
  cases hf : List.find? (fun kv => kv.1 == ip) c with
  | none => rfl
  | some kv =>
    have hmem : kv ∈ c := List.mem_of_find?_eq_some hf
    have : kv.2 = none := hc kv hmem
    simp [this]

/-- With no reader, a resolution over an all-None cache returns None,
performs no query, and stores None. -/
theorem get_ip_country_reader_none {c : Cache} (hc : AllNoneCache c)
    (ip : Option String) :
    get_ip_country none c ip = (none, cacheInsert ip none c, 0) := by
  unfold get_ip_country
  rw [cacheGet_join_of_allNone hc]

/-- Inserting a None value preserves the all-None invariant. -/
theorem allNone_insert {c : Cache} (hc : AllNoneCache c) (ip : Option String) :
    AllNoneCache (cacheInsert ip none c) := by
  intro kv hkv
  rcases List.mem_cons.mp hkv with h | h
  · rw [h]
  · exact hc kv h

/-- The blocked test applied to the label of a lookup result holds exactly
when the lookup resolved to a code whose uppercase form is in the blocked
list: the Unknown label produced by a None or empty result is never
blocked. -/
theorem country_label_blocked_iff (c? : Option String) :
    (((country_label c? != "")
        && _BLOCK_COUNTRIES.contains (pyUpper (country_label c?))) = true)
      ↔ ∃ c, c? = some c ∧ _BLOCK_COUNTRIES.contains (pyUpper c) = true := by
  cases c? with
  | none =>
    constructor
    · intro h
      exact absurd h (by decide)
    · rintro ⟨c, hc, _⟩
      cases hc
  | some s =>
    by_cases hs : s = ""
    · subst hs
      constructor
      · intro h
        exact absurd h (by decide)
      · rintro ⟨c, hc, hb⟩
        cases hc
        exact absurd hb (by decide)
    · simp [country_label, hs]

/-- The drop decision of handle_packet, characterised: exactly the
non-local, in-window packets whose resolved country uppercases into the
blocked list. -/
theorem handle_packet_drop_iff (env : GeoEnv) (cache : Cache) (pkt : Packet) :
    (handle_packet env cache pkt).1 = Decision.drop ↔
      is_local_ip env.parse pkt.dst_addr = false
      ∧ in_window pkt.dst_port = true
      ∧ ∃ c, (get_ip_country env.reader cache pkt.dst_addr).1 = some c
          ∧ _BLOCK_COUNTRIES.contains (pyUpper c) = true := by
  unfold handle_packet
  cases hl : is_local_ip env.parse pkt.dst_addr with
  | true => simp [hl]
  | false =>
    cases hp : port_out_of_range pkt.dst_port with
    | true => simp [hl, hp, in_window]
    | false =>
      simp only [hl, hp, Bool.false_eq_true, if_false, in_window,
        Bool.not_false, true_and]
      cases hb : ((country_label (get_ip_country env.reader cache
          pkt.dst_addr).1 != "")
          && _BLOCK_COUNTRIES.contains
            (pyUpper (country_label (get_ip_country env.reader cache
              pkt.dst_addr).1))) with
      | true =>
        exact iff_of_true (by simp [hb]) ((country_label_blocked_iff _).mp hb)
      | false =>
        refine iff_of_false (by simp [hb]) ?_
        intro h
        have := (country_label_blocked_iff
          (get_ip_country env.reader cache pkt.dst_addr).1).mpr h
        rw [hb] at this
        cases this

/-- With no reader the per-packet handler leaves the cache all-None: every
branch either keeps the cache or stores the None result of the failed
resolution. -/
theorem handle_packet_allNone (env : GeoEnv) (hr : env.reader = none)
    {cache : Cache} (hc : AllNoneCache cache) (pkt : Packet) :
    AllNoneCache (handle_packet env cache pkt).2 := by
  have hg : get_ip_country env.reader cache pkt.dst_addr
      = (none, cacheInsert pkt.dst_addr none cache, 0) := by
    rw [hr]
    exact get_ip_country_reader_none hc pkt.dst_addr
  simp only [handle_packet, hg]
  split
  · exact hc
  · split
    · exact hc
    · split
      · exact allNone_insert hc _
      · exact allNone_insert hc _

/-- With no reader the loop maintains the all-None cache invariant. -/
theorem runLoop_allNone (env : GeoEnv) (hr : env.reader = none)
    (evs : List LoopEvent) {cache : Cache} (hc : AllNoneCache cache)
    (sent : List Packet) :
    AllNoneCache (runLoop env evs cache sent).1 := by
  induction evs generalizing cache sent with
  | nil => exact hc
  | cons e rest ih =>
    cases e with
    | recv running pkt? =>
      cases running with
      | false => simpa [runLoop] using hc
      | true =>
        cases pkt? with
        | none => simpa [runLoop] using ih hc sent
        | some pkt =>
          simp only [runLoop]
          exact ih (handle_packet_allNone env hr hc pkt) _
    | handleErr running pkt rc ro =>
      cases running with
      | false => simpa [runLoop] using hc
      | true =>
        cases rc with
        | false => simpa [runLoop] using hc
        | true => simpa [runLoop] using ih hc _
    | recvFail r => simpa [runLoop] using hc

/-- If an event makes the loop stop regardless of the state it arrives in,
then everything after that event is invisible: the run over any extension
equals the run over the prefix before the event. -/
theorem runLoop_append_of_halt (env : GeoEnv) (e : LoopEvent)
    (he : ∀ rest cache sent, runLoop env (e :: rest) cache sent = (cache, sent))
    (evs1 evs2 : List LoopEvent) (cache : Cache) (sent : List Packet) :
    runLoop env (evs1 ++ e :: evs2) cache sent
      = runLoop env evs1 cache sent := by
  induction evs1 generalizing cache sent with
  | nil => simpa using he evs2 cache sent
  | cons ev rest ih =>
    cases ev with
    | recv running pkt? =>
      cases running with
      | false => simp [runLoop]
      | true =>
        cases pkt? with
        | none =>
          simp only [List.cons_append, runLoop, if_true]
          exact ih _ _
        | some pkt =>
          simp only [List.cons_append, runLoop, if_true]
          exact ih _ _
    | handleErr running pkt rc ro =>
      cases running with
      | false => simp [runLoop]
      | true =>
        cases rc with
        | false => simp [runLoop]
        | true =>
          simp only [List.cons_append, runLoop, if_true]
          exact ih _ _
    | recvFail r => simp [runLoop]

/-- C1: for every packet the allow/drop decision follows the ordered chain
with first match winning: a local destination is allowed (re-injected); an
absent or out-of-window destination port is allowed; otherwise the packet
is dropped (not re-injected) exactly when the resolved country code,
compared case-insensitively against the blocked-country set, is a member
of it, and every other case (including an unresolved country) is allowed;
in the loop an allowed packet is re-injected and a dropped one is not. -/
theorem decide_follows_ordered_chain (env : GeoEnv) (cache : Cache)
    (pkt : Packet) (sent : List Packet) :
    ((handle_packet env cache pkt).1 = Decision.drop ↔
      is_local_ip env.parse pkt.dst_addr = false
      ∧ in_window pkt.dst_port = true
      ∧ ∃ c, (get_ip_country env.reader cache pkt.dst_addr).1 = some c
          ∧ _BLOCK_COUNTRIES.contains (pyUpper c) = true)
    ∧ runLoop env [LoopEvent.recv true (some pkt)] cache sent
      = ((handle_packet env cache pkt).2,
        if (handle_packet env cache pkt).1 = Decision.allow
        then sent ++ [pkt] else sent) :=
  ⟨handle_packet_drop_iff env cache pkt, rfl⟩

/-- C2 (bug evidence): with a reader whose lookup fails, the first call to
get_ip_country returns None after one database query, and the second call
on the resulting cache returns the same result but performs one database
query again: the stored None looks like a cache miss to the Python get, so
the failed lookup is retried, contrary to the stated design. -/
theorem get_ip_country_retries_failed_lookup :
    (get_ip_country failingReader [] (some "203.0.113.10")).1 = none
    ∧ (get_ip_country failingReader
        (get_ip_country failingReader [] (some "203.0.113.10")).2.1
        (some "203.0.113.10")).1
      = (get_ip_country failingReader [] (some "203.0.113.10")).1
    ∧ (get_ip_country failingReader [] (some "203.0.113.10")).2.2 = 1
    ∧ (get_ip_country failingReader
        (get_ip_country failingReader [] (some "203.0.113.10")).2.1
        (some "203.0.113.10")).2.2 = 1 :=
  ⟨rfl, rfl, rfl, rfl⟩

/-- C3: the port-window test is true exactly for a present port with
MIN_DST_PORT < port and port <= MAX_DST_PORT, false for an absent port,
and at the boundaries 15000 is out of window, 15001 and 15999 are in
window, and 16000 is out of window. -/
theorem in_window_iff_bounds :
    (∀ p : Option Nat, in_window p = true ↔
      ∃ v, p = some v ∧ MIN_DST_PORT < v ∧ v ≤ MAX_DST_PORT)
    ∧ in_window none = false
    ∧ in_window (some 15000) = false
    ∧ in_window (some 15001) = true
    ∧ in_window (some 15999) = true
    ∧ in_window (some 16000) = false := by
  refine ⟨?_, by decide, by decide, by decide, by decide, by decide⟩
  intro p
  cases p with
  | none => simp [in_window, port_out_of_range]
  | some v =>
    simp only [in_window, port_out_of_range, Bool.not_eq_true',
      Bool.or_eq_false_iff, decide_eq_false_iff_not, Option.some.injEq,
      MIN_DST_PORT, MAX_DST_PORT, exists_eq_left']
    omega

/-- C4: if the geolocation database failed to load, every resolution over
the run cache (all-None, as it starts empty) returns None without a query,
every decision for a non-local in-window packet is Allow, and the loop
keeps the cache all-None, so the drop branch stays unreachable for the
whole run. -/
theorem fail_open_when_reader_absent (env : GeoEnv) (cache : Cache)
    (ip : Option String) (pkt : Packet) (evs : List LoopEvent)
    (sent : List Packet)
    (hr : env.reader = none) (hc : AllNoneCache cache)
    (_hl : is_local_ip env.parse pkt.dst_addr = false)
    (_hw : in_window pkt.dst_port = true) :
    get_ip_country env.reader cache ip = (none, cacheInsert ip none cache, 0)
    ∧ (handle_packet env cache pkt).1 = Decision.allow
    ∧ AllNoneCache (runLoop env evs cache sent).1 := by
  refine ⟨by rw [hr]; exact get_ip_country_reader_none hc ip, ?_,
    runLoop_allNone env hr evs hc sent⟩
  cases hd : (handle_packet env cache pkt).1 with
  | allow => rfl
  | drop =>
    rcases ((handle_packet_drop_iff env cache pkt).mp hd).2.2 with ⟨c, hcc, _⟩
    rw [hr, get_ip_country_reader_none hc pkt.dst_addr] at hcc
    simp at hcc

/-- Witness for C4 at a concrete no-database environment, empty cache and
a non-local in-window packet. -/
theorem fail_open_when_reader_absent_witness :
    get_ip_country noDbEnv.reader [] (some "203.0.113.10")
      = (none, cacheInsert (some "203.0.113.10") none [], 0)
    ∧ (handle_packet noDbEnv []
        { dst_addr := some "203.0.113.10", dst_port := some 15500 }).1
      = Decision.allow
    ∧ AllNoneCache (runLoop noDbEnv [] [] []).1 :=
  fail_open_when_reader_absent noDbEnv [] (some "203.0.113.10")
    { dst_addr := some "203.0.113.10", dst_port := some 15500 } [] []
    rfl (fun kv h => by cases h) rfl (by decide)

/-- C5: block_countries_for_process leaves CURRENT_DIVERT cleared to None
on every exit path, whether setup failed or the loop ran and ended in any
way: the finally clause executes unconditionally. -/
theorem current_divert_cleared_on_all_exits (env : GeoEnv) (cache0 : Cache)
    (outcome : SetupOutcome) :
    (block_countries_for_process env cache0 outcome).currentDivert = none := by
  cases outcome <;> rfl

/-- C6: once an iteration observes the stop flag false at the top of the
loop, or the handler observes it false after an in-handler failure, or the
receive itself fails, the loop processes nothing further: the run over any
continuation equals the run over the events before that point, so no
packet is re-injected after the in-flight iteration. -/
theorem no_reinjection_after_stop_observed (env : GeoEnv)
    (evs1 evs2 : List LoopEvent) (cache : Cache) (sent : List Packet)
    (pkt? : Option Packet) (pkt : Packet) (rc ro r : Bool) :
    runLoop env (evs1 ++ LoopEvent.recv false pkt? :: evs2) cache sent
      = runLoop env evs1 cache sent
    ∧ runLoop env (evs1 ++ LoopEvent.handleErr false pkt rc ro :: evs2)
        cache sent
      = runLoop env evs1 cache sent
    ∧ runLoop env (evs1 ++ LoopEvent.recvFail r :: evs2) cache sent
      = runLoop env evs1 cache sent :=
  ⟨runLoop_append_of_halt env (LoopEvent.recv false pkt?)
      (fun _ _ _ => rfl) evs1 evs2 cache sent,
   runLoop_append_of_halt env (LoopEvent.handleErr false pkt rc ro)
      (fun _ _ _ => rfl) evs1 evs2 cache sent,
   runLoop_append_of_halt env (LoopEvent.recvFail r)
      (fun _ _ _ => rfl) evs1 evs2 cache sent⟩

/-- C7: the signal handler sets the running flag to false in every case,
invokes close exactly when the shared handle reference is non-None, marks
the handle closed when close succeeds, and swallows a raising close,
leaving only the flag changed; the model is a total function, so the
handler never raises. -/
theorem signal_stop_behaviour (b : Bool) (st : SignalState) :
    ((_signal_stop b st).1.running = false)
    ∧ ((_signal_stop b st).2 = st.currentDivert.isSome)
    ∧ (∀ h, st.currentDivert = some h → b = false →
        (_signal_stop b st).1.currentDivert = some { h with closed := true })
    ∧ (b = true →
        (_signal_stop b st).1
          = { running := false, currentDivert := st.currentDivert }) := by
  cases st with
  | mk running divert =>
    cases divert with
    | none => cases b <;> simp [_signal_stop]
    | some h => cases b <;> simp [_signal_stop, closeHandle]

/-- Witness for C7: from a running state holding an open handle, a
successful close leaves the flag false and the handle closed. -/
theorem signal_stop_behaviour_witness :
    (_signal_stop false
      { running := true, currentDivert := some { closed := false } }).1.running
      = false
    ∧ (_signal_stop false
        { running := true,
          currentDivert := some { closed := false } }).1.currentDivert
      = some { closed := true } :=
  ⟨(signal_stop_behaviour false
      { running := true, currentDivert := some { closed := false } }).1,
   (signal_stop_behaviour false
      { running := true, currentDivert := some { closed := false } }).2.2.1
      { closed := false } rfl rfl⟩

/-- C8: is_local_ip is a total function with no side effects: it returns
false whenever the parse raises (any exception class), and for a parsed
address it returns exactly private or loopback or link-local. -/
theorem is_local_ip_total_spec (parse : Option String → Except PyErr IPInfo)
    (ip : Option String) :
    (∀ e, parse ip = Except.error e → is_local_ip parse ip = false)
    ∧ (∀ o, parse ip = Except.ok o →
        is_local_ip parse ip
          = (o.is_private || o.is_loopback || o.is_link_local)) := by
  constructor
  · intro e he
    simp [is_local_ip, he]
  · intro o ho
    simp [is_local_ip, ho]

/-- Witness for C8 at an always-failing parser and at a parser returning a
private address. -/
theorem is_local_ip_total_spec_witness :
    is_local_ip (fun _ => Except.error PyErr.otherError) (some "nonsense")
      = false
    ∧ is_local_ip
        (fun _ => Except.ok
          { is_private := true, is_loopback := false, is_link_local := false })
        (some "10.0.0.1")
      = (true || false || false) :=
  ⟨(is_local_ip_total_spec _ (some "nonsense")).1 PyErr.otherError rfl,
   (is_local_ip_total_spec _ (some "10.0.0.1")).2
      { is_private := true, is_loopback := false, is_link_local := false } rfl⟩

/-- C9: the local-address predicate of sniffer.py agrees with the one in
geoblock.py on every input, given that the address parser fails only with
ValueError (the behaviour of the standard library parser on any string or
None input): in particular both return false on unparseable inputs. -/
theorem sniffer_geoblock_is_local_agree
    (parse : Option String → Except PyErr IPInfo) (ip : Option String)
    (hval : ∀ e, parse ip = Except.error e → e = PyErr.valueError) :
    Sniffer.is_local_ip parse ip
      = Except.ok (Geoblock.is_local_ip parse ip) := by
  cases hp : parse ip with
  | ok o =>
    cases o with
    | mk p l ll =>
      simp only [Sniffer.is_local_ip, Geoblock.is_local_ip, hp]
      cases p <;> cases l <;> cases ll <;> rfl
  | error e =>
    have he := hval e hp
    subst he
    simp only [Sniffer.is_local_ip, Geoblock.is_local_ip, hp]

/-- Witness for C9 at a parser that rejects the input with ValueError:
both predicates yield false. -/
theorem sniffer_geoblock_is_local_agree_witness :
    Sniffer.is_local_ip (fun _ => Except.error PyErr.valueError)
        (some "nonsense")
      = Except.ok (Geoblock.is_local_ip
          (fun _ => Except.error PyErr.valueError) (some "nonsense")) :=
  sniffer_geoblock_is_local_agree _ _
    (fun e he => by injection he with h2; exact h2.symm)

/-- C10: when the handler body raises while the stop flag is still true,
the loop fails open for that packet: it attempts the recovery re-injection
(the packet is sent when that attempt succeeds, and its failure is
swallowed) and continues with the next event; only when the flag is
observed false does the exception terminate the loop. -/
theorem handler_error_fail_open (env : GeoEnv) (rest : List LoopEvent)
    (cache : Cache) (sent : List Packet) (pkt : Packet) (ro : Bool) :
    runLoop env (LoopEvent.handleErr true pkt true true :: rest) cache sent
      = runLoop env rest cache (sent ++ [pkt])
    ∧ runLoop env (LoopEvent.handleErr true pkt true false :: rest) cache sent
      = runLoop env rest cache sent
    ∧ runLoop env (LoopEvent.handleErr true pkt false ro :: rest) cache sent
      = (cache, sent) :=
  ⟨rfl, rfl, rfl⟩
